import Mathlib

/-
Verification of the TMDB endpoint-resolution layer (src/services/TMDB.js).
The seven endpoint `query` functions are embedded as pure Lean functions
from their inputs and the module-level credential to the URL string the
JavaScript template literals produce.  JavaScript values that can be a
string, a number or `undefined` are modelled by `JVal`; template
interpolation of numbers is modelled by `jsNumStr` (decimal rendering,
as JavaScript renders integral numbers).
-/

namespace TMDB

/-- Decimal digit character, `natDigitChar d` is the ASCII digit for `d < 10`. -/
def natDigitChar (d : Nat) : Char := Char.ofNat (48 + d)

/-- Fuel-indexed decimal rendering of a natural number (most significant first).
The fuel argument makes the recursion structural; fuel `n` is always enough. -/
def natCharsAux : Nat → Nat → List Char
  | 0, n => [natDigitChar (n % 10)]
  | fuel + 1, n =>
    if n < 10 then [natDigitChar n]
    else natCharsAux fuel (n / 10) ++ [natDigitChar (n % 10)]

/-- Decimal rendering of a natural number. -/
def natChars (n : Nat) : List Char := natCharsAux n n

/-- JavaScript rendering of an integral number inside a template literal:
decimal digits, prefixed by a minus sign when negative. -/
def jsNumStr (i : Int) : String :=
  if i < 0 then String.mk ('-' :: natChars i.natAbs) else String.mk (natChars i.natAbs)

/-- A JavaScript value as it occurs in the endpoint arguments: a string,
a number, or `undefined`. -/
inductive JVal where
  | vstr (s : String)
  | vnum (n : Int)
  | vundef
deriving DecidableEq

/-- Template-literal interpolation of a `JVal` (`undefined` renders as
the text "undefined", as in JavaScript). -/
def JVal.interp : JVal → String
  | .vstr s => s
  | .vnum n => jsNumStr n
  | .vundef => "undefined"

/-- JavaScript truthiness of a `JVal`: a string is truthy iff non-empty,
a number iff non-zero, `undefined` is falsy. -/
def JVal.truthy : JVal → Bool
  | .vstr s => s != ""
  | .vnum n => n != 0
  | .vundef => false

/-- The test `typeof v === 'string'`. -/
def JVal.isStringType : JVal → Bool
  | .vstr _ => true
  | _ => false

/-- The test `typeof v === 'number'`. -/
def JVal.isNumberType : JVal → Bool
  | .vnum _ => true
  | _ => false

/-- Interpolation of a string-or-undefined value. -/
def optInterp : Option String → String
  | some s => s
  | none => "undefined"

/-- Truthiness of a string-or-undefined value. -/
def truthyOptStr : Option String → Bool
  | some s => s != ""
  | none => false

/-- Interpolation of the module-level constant
`tmdbApiKey = process.env.REACT_APP_TMDB_KEY` into a template literal:
when the environment variable is absent the constant is `undefined` and
renders as the text "undefined". -/
def envKeyString : Option String → String
  | some s => s
  | none => "undefined"

/-- Argument object of the `getMovies` endpoint:
`{ genreIdOrCategoryName, page, searchQuery }`. -/
structure MoviesArg where
  genreIdOrCategoryName : JVal
  page : Int
  searchQuery : Option String
deriving DecidableEq

/-- Argument object of the `getList` endpoint:
`{ listName, accountId, sessionId, page }`. -/
structure ListArg where
  listName : String
  accountId : JVal
  sessionId : String
  page : Int
deriving DecidableEq

/-- `getGenres` endpoint, line 11 of TMDB.js. -/
def getGenres (key : String) : String :=
  "/genre/movie/list?api_key=" ++ key

/-- `getMovies` endpoint, lines 14-33 of TMDB.js: dispatch on
`searchQuery`, then string category, then numeric genre id, then the
popular default. -/
def getMovies (a : MoviesArg) (key : String) : String :=
  if truthyOptStr a.searchQuery then
    "/search/movie?query=" ++ optInterp a.searchQuery ++ "&page=" ++ jsNumStr a.page ++
      "&api_key=" ++ key
  else if a.genreIdOrCategoryName.truthy && a.genreIdOrCategoryName.isStringType then
    "/movie/" ++ a.genreIdOrCategoryName.interp ++ "?page=" ++ jsNumStr a.page ++
      "&api_key=" ++ key
  else if a.genreIdOrCategoryName.truthy && a.genreIdOrCategoryName.isNumberType then
    "discover/movie?with_genres=" ++ a.genreIdOrCategoryName.interp ++ "&page=" ++
      jsNumStr a.page ++ "&api_key=" ++ key
  else
    "/movie/popular?page=" ++ jsNumStr a.page ++ "&api_key=" ++ key

/-- `getMovie` endpoint, line 36 of TMDB.js. -/
def getMovie (id : JVal) (key : String) : String :=
  "/movie/" ++ id.interp ++ "?append_to_response=videos,credits&api_key=" ++ key

/-- `getRecommendations` endpoint, line 41 of TMDB.js. -/
def getRecommendations (movieId : JVal) (list : JVal) (key : String) : String :=
  "/movie/" ++ movieId.interp ++ "/" ++ list.interp ++ "?api_key=" ++ key

/-- `getActorDetails` endpoint, line 46 of TMDB.js (note: no leading slash
in the source). -/
def getActorDetails (id : JVal) (key : String) : String :=
  "person/" ++ id.interp ++ "?api_key=" ++ key

/-- `getMoviesByActorId` endpoint, line 50 of TMDB.js. -/
def getMoviesByActorId (id : JVal) (page : Int) (key : String) : String :=
  "/discover/movie?with_cast=" ++ id.interp ++ "&page=" ++ jsNumStr page ++ "&api_key=" ++ key

/-- `getList` endpoint, line 55 of TMDB.js (note: `api_key` comes first
in this query string). -/
def getList (a : ListArg) (key : String) : String :=
  "/account/" ++ a.accountId.interp ++ "/" ++ a.listName ++ "?api_key=" ++ key ++
    "&session_id=" ++ a.sessionId ++ "&page=" ++ jsNumStr a.page

/-- A logical request to one of the seven endpoints. -/
inductive Request where
  | genres
  | movies (a : MoviesArg)
  | movie (id : JVal)
  | recommendations (movieId : JVal) (list : JVal)
  | actorDetails (id : JVal)
  | moviesByActorId (id : JVal) (page : Int)
  | userList (a : ListArg)
deriving DecidableEq

/-- Dispatch a request to the corresponding endpoint query function. -/
def resolve (r : Request) (key : String) : String :=
  match r with
  | .genres => getGenres key
  | .movies a => getMovies a key
  | .movie id => getMovie id key
  | .recommendations m l => getRecommendations m l key
  | .actorDetails id => getActorDetails id key
  | .moviesByActorId id p => getMoviesByActorId id p key
  | .userList a => getList a key

/-- The module-level state of TMDB.js: the single `const tmdbApiKey`
binding read from the environment at process start. -/
structure ModuleEnv where
  tmdbApiKey : Option String
deriving DecidableEq

/-- One endpoint call in state-passing form: the query functions only read
the module binding (there is no assignment anywhere in the source), so a
call returns the resolved URL together with the unchanged module state. -/
def callEndpoint (e : ModuleEnv) (r : Request) : String × ModuleEnv :=
  (resolve r (envKeyString e.tmdbApiKey), e)

/-- A sequence of endpoint calls threading the module state. -/
def runCalls (e : ModuleEnv) : List Request → List String × ModuleEnv
  | [] => ([], e)
  | r :: rs =>
    let p := callEndpoint e r
    let q := runCalls p.2 rs
    (p.1 :: q.1, q.2)

/-- Characters of a URL before the first question mark. -/
def takeUntil (c : Char) : List Char → List Char
  | [] => []
  | x :: xs => if x = c then [] else x :: takeUntil c xs

/-- Characters of a URL after the first occurrence of `c` (empty when
`c` does not occur). -/
def dropUntil (c : Char) : List Char → List Char
  | [] => []
  | x :: xs => if x = c then xs else dropUntil c xs

/-- Split a character list on a separator character. -/
def splitOnChar (c : Char) : List Char → List (List Char)
  | [] => [[]]
  | x :: xs =>
    if x = c then [] :: splitOnChar c xs
    else
      match splitOnChar c xs with
      | [] => [[x]]
      | h :: t => (x :: h) :: t

/-- The path component of a resolved URL: everything before the first
question mark. -/
def urlPath (u : String) : String := String.mk (takeUntil '?' u.data)

/-- Parse one `name=value` chunk of a query string. -/
def paramChunk (l : List Char) : String × String :=
  (String.mk (takeUntil '=' l), String.mk (dropUntil '=' l))

/-- The query parameters of a resolved URL: the part after the first
question mark, split on ampersands, each chunk split at its first
equals sign. -/
def queryParams (u : String) : List (String × String) :=
  (splitOnChar '&' (dropUntil '?' u.data)).map paramChunk

/-- How often a parameter name occurs in the query string of a URL. -/
def paramCount (u : String) (nm : String) : Nat :=
  ((queryParams u).map Prod.fst).count nm

/-- A string free of the URL separator characters that the resolver
interpolates around (it performs no escaping). -/
def sepFree (s : String) : Prop := '?' ∉ s.data ∧ '&' ∉ s.data

instance (s : String) : Decidable (sepFree s) := by
  unfold sepFree
  infer_instance

/-- All strings a request interpolates into the URL are separator-free. -/
def cleanReq : Request → Prop
  | .genres => True
  | .movies a => sepFree (optInterp a.searchQuery) ∧ sepFree a.genreIdOrCategoryName.interp
  | .movie id => sepFree id.interp
  | .recommendations m l => sepFree m.interp ∧ sepFree l.interp
  | .actorDetails id => sepFree id.interp
  | .moviesByActorId id _ => sepFree id.interp
  | .userList a => sepFree a.accountId.interp ∧ sepFree a.listName ∧ sepFree a.sessionId

instance (r : Request) : Decidable (cleanReq r) := by
  cases r <;> unfold cleanReq <;> infer_instance

/-- Guard of the search branch of `getMovies`. -/
def searchGuard (a : MoviesArg) : Bool := truthyOptStr a.searchQuery

/-- Guard of the string-category branch of `getMovies`. -/
def categoryGuard (a : MoviesArg) : Bool :=
  !searchGuard a && (a.genreIdOrCategoryName.truthy && a.genreIdOrCategoryName.isStringType)

/-- Guard of the numeric-genre branch of `getMovies`. -/
def genreGuard (a : MoviesArg) : Bool :=
  !searchGuard a && !(a.genreIdOrCategoryName.truthy && a.genreIdOrCategoryName.isStringType) &&
    (a.genreIdOrCategoryName.truthy && a.genreIdOrCategoryName.isNumberType)

/-- Guard of the popular-default branch of `getMovies`. -/
def popularGuard (a : MoviesArg) : Bool :=
  !searchGuard a && !(a.genreIdOrCategoryName.truthy && a.genreIdOrCategoryName.isStringType) &&
    !(a.genreIdOrCategoryName.truthy && a.genreIdOrCategoryName.isNumberType)

theorem takeUntil_append {c : Char} {a : List Char} (b : List Char) (h : c ∉ a) :
    takeUntil c (a ++ c :: b) = a := by
  induction a with
  | nil => simp [takeUntil]
  | cons x xs ih =>
    have hx : ¬(x = c) := fun e => h (by simp [e])
    have hxs : c ∉ xs := fun hm => h (by simp [hm])
    simp [takeUntil, hx, ih hxs]

theorem dropUntil_append {c : Char} {a : List Char} (b : List Char) (h : c ∉ a) :
    dropUntil c (a ++ c :: b) = b := by
  induction a with
  | nil => simp [dropUntil]
  | cons x xs ih =>
    have hx : ¬(x = c) := fun e => h (by simp [e])
    have hxs : c ∉ xs := fun hm => h (by simp [hm])
    simp [dropUntil, hx, ih hxs]

theorem splitOnChar_of_notMem {c : Char} {l : List Char} (h : c ∉ l) :
    splitOnChar c l = [l] := by
  induction l with
  | nil => rfl
  | cons x xs ih =>
    have hx : ¬(x = c) := fun e => h (by simp [e])
    have hxs : c ∉ xs := fun hm => h (by simp [hm])
    simp [splitOnChar, hx, ih hxs]

theorem splitOnChar_append {c : Char} {a : List Char} (b : List Char) (h : c ∉ a) :
    splitOnChar c (a ++ c :: b) = a :: splitOnChar c b := by
  induction a with
  | nil => simp [splitOnChar]
  | cons x xs ih =>
    have hx : ¬(x = c) := fun e => h (by simp [e])
    have hxs : c ∉ xs := fun hm => h (by simp [hm])
    simp [splitOnChar, hx, ih hxs]

theorem natCharsAux_digits (fuel n : Nat) :
    ∀ c ∈ natCharsAux fuel n, ∃ d, d < 10 ∧ c = natDigitChar d := by
  induction fuel generalizing n with
  | zero =>
    intro c hc
    simp [natCharsAux] at hc
    exact ⟨n % 10, Nat.mod_lt _ (by omega), hc⟩
  | succ fuel ih =>
    intro c hc
    by_cases h : n < 10
    · simp [natCharsAux, h] at hc
      exact ⟨n, h, hc⟩
    · simp only [natCharsAux, if_neg h, List.mem_append] at hc
      rcases hc with hc | hc
      · exact ih (n / 10) c hc
      · simp at hc
        exact ⟨n % 10, Nat.mod_lt _ (by omega), hc⟩

theorem not_mem_natChars {c : Char} (hc : ∀ d, d < 10 → natDigitChar d ≠ c) (n : Nat) :
    c ∉ natChars n := by
  intro hm
  obtain ⟨d, hd, he⟩ := natCharsAux_digits n n c hm
  exact hc d hd he.symm

theorem not_mem_jsNumStr {c : Char} (hc : ∀ d, d < 10 → natDigitChar d ≠ c)
    (hminus : c ≠ '-') (i : Int) : c ∉ (jsNumStr i).data := by
  unfold jsNumStr
  by_cases h : i < 0
  · rw [if_pos h]
    show c ∉ '-' :: natChars i.natAbs
    intro hm
    rcases List.mem_cons.mp hm with e | hm
    · exact hminus e
    · exact not_mem_natChars hc _ hm
  · rw [if_neg h]
    exact not_mem_natChars hc _

theorem qmark_not_mem_jsNumStr (i : Int) : '?' ∉ (jsNumStr i).data :=
  not_mem_jsNumStr (by decide) (by decide) i

theorem amp_not_mem_jsNumStr (i : Int) : '&' ∉ (jsNumStr i).data :=
  not_mem_jsNumStr (by decide) (by decide) i

theorem not_mem_sappend {c : Char} {s t : String} (hs : c ∉ s.data) (ht : c ∉ t.data) :
    c ∉ (s ++ t).data := by
  rw [String.data_append]
  intro hm
  rcases List.mem_append.mp hm with h | h
  · exact hs h
  · exact ht h

theorem urlPath_split {P Q : String} (h : '?' ∉ P.data) : urlPath (P ++ "?" ++ Q) = P := by
  unfold urlPath
  rw [String.data_append, String.data_append,
    show ("?" : String).data = ['?'] from rfl, List.append_assoc,
    show ['?'] ++ Q.data = '?' :: Q.data from rfl, takeUntil_append Q.data h]

theorem queryParams_split {P Q : String} (h : '?' ∉ P.data) :
    queryParams (P ++ "?" ++ Q) = (splitOnChar '&' Q.data).map paramChunk := by
  unfold queryParams
  rw [String.data_append, String.data_append,
    show ("?" : String).data = ['?'] from rfl, List.append_assoc,
    show ['?'] ++ Q.data = '?' :: Q.data from rfl, dropUntil_append Q.data h]

theorem splitAmp_cons {Q1 Q2 : String} (h : '&' ∉ Q1.data) :
    splitOnChar '&' (Q1 ++ "&" ++ Q2).data = Q1.data :: splitOnChar '&' Q2.data := by
  rw [String.data_append, String.data_append,
    show ("&" : String).data = ['&'] from rfl, List.append_assoc,
    show ['&'] ++ Q2.data = '&' :: Q2.data from rfl, splitOnChar_append Q2.data h]

theorem splitAmp_single {Q : String} (h : '&' ∉ Q.data) :
    splitOnChar '&' Q.data = [Q.data] :=
  splitOnChar_of_notMem h

theorem paramChunk_eqS {N V : String} (h : '=' ∉ N.data) :
    paramChunk (N ++ "=" ++ V).data = (N, V) := by
  unfold paramChunk
  rw [String.data_append, String.data_append,
    show ("=" : String).data = ['='] from rfl, List.append_assoc,
    show ['='] ++ V.data = '=' :: V.data from rfl,
    takeUntil_append V.data h, dropUntil_append V.data h]

theorem getGenres_canonical (key : String) :
    getGenres key = "/genre/movie/list" ++ "?" ++ ("api_key" ++ "=" ++ key) := by
  show "/genre/movie/list?api_key=" ++ key = _
  rw [show ("/genre/movie/list?api_key=" : String) =
    "/genre/movie/list" ++ "?" ++ ("api_key" ++ "=") from by decide]
  simp only [String.append_assoc]

theorem searchUrl_canonical (sq ps key : String) :
    "/search/movie?query=" ++ sq ++ "&page=" ++ ps ++ "&api_key=" ++ key =
      "/search/movie" ++ "?" ++ (("query" ++ "=" ++ sq) ++ "&" ++
        (("page" ++ "=" ++ ps) ++ "&" ++ ("api_key" ++ "=" ++ key))) := by
  rw [show ("/search/movie?query=" : String) =
      "/search/movie" ++ "?" ++ ("query" ++ "=") from by decide,
    show ("&page=" : String) = "&" ++ ("page" ++ "=") from by decide,
    show ("&api_key=" : String) = "&" ++ ("api_key" ++ "=") from by decide]
  simp only [String.append_assoc]

theorem categoryUrl_canonical (s ps key : String) :
    "/movie/" ++ s ++ "?page=" ++ ps ++ "&api_key=" ++ key =
      ("/movie/" ++ s) ++ "?" ++ (("page" ++ "=" ++ ps) ++ "&" ++
        ("api_key" ++ "=" ++ key)) := by
  rw [show ("?page=" : String) = "?" ++ ("page" ++ "=") from by decide,
    show ("&api_key=" : String) = "&" ++ ("api_key" ++ "=") from by decide]
  simp only [String.append_assoc]

theorem genreUrl_canonical (gs ps key : String) :
    "discover/movie?with_genres=" ++ gs ++ "&page=" ++ ps ++ "&api_key=" ++ key =
      "discover/movie" ++ "?" ++ (("with_genres" ++ "=" ++ gs) ++ "&" ++
        (("page" ++ "=" ++ ps) ++ "&" ++ ("api_key" ++ "=" ++ key))) := by
  rw [show ("discover/movie?with_genres=" : String) =
      "discover/movie" ++ "?" ++ ("with_genres" ++ "=") from by decide,
    show ("&page=" : String) = "&" ++ ("page" ++ "=") from by decide,
    show ("&api_key=" : String) = "&" ++ ("api_key" ++ "=") from by decide]
  simp only [String.append_assoc]

theorem popularUrl_canonical (ps key : String) :
    "/movie/popular?page=" ++ ps ++ "&api_key=" ++ key =
      "/movie/popular" ++ "?" ++ (("page" ++ "=" ++ ps) ++ "&" ++
        ("api_key" ++ "=" ++ key)) := by
  rw [show ("/movie/popular?page=" : String) =
      "/movie/popular" ++ "?" ++ ("page" ++ "=") from by decide,
    show ("&api_key=" : String) = "&" ++ ("api_key" ++ "=") from by decide]
  simp only [String.append_assoc]

theorem getMovie_canonical (id : JVal) (key : String) :
    getMovie id key = ("/movie/" ++ id.interp) ++ "?" ++
      (("append_to_response" ++ "=" ++ "videos,credits") ++ "&" ++
        ("api_key" ++ "=" ++ key)) := by
  show "/movie/" ++ id.interp ++ "?append_to_response=videos,credits&api_key=" ++ key = _
  rw [show ("?append_to_response=videos,credits&api_key=" : String) =
    "?" ++ (("append_to_response" ++ "=" ++ "videos,credits") ++ "&" ++
      ("api_key" ++ "=")) from by decide]
  simp only [String.append_assoc]

theorem getRecommendations_canonical (m l : JVal) (key : String) :
    getRecommendations m l key =
      ("/movie/" ++ m.interp ++ "/" ++ l.interp) ++ "?" ++ ("api_key" ++ "=" ++ key) := by
  show "/movie/" ++ m.interp ++ "/" ++ l.interp ++ "?api_key=" ++ key = _
  rw [show ("?api_key=" : String) = "?" ++ ("api_key" ++ "=") from by decide]
  simp only [String.append_assoc]

theorem getActorDetails_canonical (id : JVal) (key : String) :
    getActorDetails id key = ("person/" ++ id.interp) ++ "?" ++ ("api_key" ++ "=" ++ key) := by
  show "person/" ++ id.interp ++ "?api_key=" ++ key = _
  rw [show ("?api_key=" : String) = "?" ++ ("api_key" ++ "=") from by decide]
  simp only [String.append_assoc]

theorem getMoviesByActorId_canonical (id : JVal) (p : Int) (key : String) :
    getMoviesByActorId id p key = "/discover/movie" ++ "?" ++
      (("with_cast" ++ "=" ++ id.interp) ++ "&" ++
        (("page" ++ "=" ++ jsNumStr p) ++ "&" ++ ("api_key" ++ "=" ++ key))) := by
  show "/discover/movie?with_cast=" ++ id.interp ++ "&page=" ++ jsNumStr p ++
    "&api_key=" ++ key = _
  rw [show ("/discover/movie?with_cast=" : String) =
      "/discover/movie" ++ "?" ++ ("with_cast" ++ "=") from by decide,
    show ("&page=" : String) = "&" ++ ("page" ++ "=") from by decide,
    show ("&api_key=" : String) = "&" ++ ("api_key" ++ "=") from by decide]
  simp only [String.append_assoc]

theorem getList_canonical (a : ListArg) (key : String) :
    getList a key = ("/account/" ++ a.accountId.interp ++ "/" ++ a.listName) ++ "?" ++
      (("api_key" ++ "=" ++ key) ++ "&" ++
        (("session_id" ++ "=" ++ a.sessionId) ++ "&" ++
          ("page" ++ "=" ++ jsNumStr a.page))) := by
  show "/account/" ++ a.accountId.interp ++ "/" ++ a.listName ++ "?api_key=" ++ key ++
    "&session_id=" ++ a.sessionId ++ "&page=" ++ jsNumStr a.page = _
  rw [show ("?api_key=" : String) = "?" ++ ("api_key" ++ "=") from by decide,
    show ("&session_id=" : String) = "&" ++ ("session_id" ++ "=") from by decide,
    show ("&page=" : String) = "&" ++ ("page" ++ "=") from by decide]
  simp only [String.append_assoc]

theorem queryParams_getGenres (key : String) (hk : '&' ∉ key.data) :
    queryParams (getGenres key) = [("api_key", key)] := by
  have hp : '?' ∉ ("/genre/movie/list" : String).data := by decide
  have hq1 : '&' ∉ (("api_key" : String) ++ "=" ++ key).data :=
    not_mem_sappend (by decide) hk
  have e1 : paramChunk ((("api_key" : String) ++ "=" ++ key)).data = ("api_key", key) :=
    paramChunk_eqS (by decide)
  rw [getGenres_canonical, queryParams_split hp, splitAmp_single hq1, List.map_cons,
    List.map_nil, e1]

theorem queryParams_search (sq : String) (p : Int) (key : String)
    (hsq : '&' ∉ sq.data) (hk : '&' ∉ key.data) :
    queryParams ("/search/movie?query=" ++ sq ++ "&page=" ++ jsNumStr p ++
        "&api_key=" ++ key) =
      [("query", sq), ("page", jsNumStr p), ("api_key", key)] := by
  have hp : '?' ∉ ("/search/movie" : String).data := by decide
  have hq1 : '&' ∉ (("query" : String) ++ "=" ++ sq).data :=
    not_mem_sappend (by decide) hsq
  have hq2 : '&' ∉ (("page" : String) ++ "=" ++ jsNumStr p).data :=
    not_mem_sappend (by decide) (amp_not_mem_jsNumStr p)
  have hq3 : '&' ∉ (("api_key" : String) ++ "=" ++ key).data :=
    not_mem_sappend (by decide) hk
  have e1 : paramChunk ((("query" : String) ++ "=" ++ sq)).data = ("query", sq) :=
    paramChunk_eqS (by decide)
  have e2 : paramChunk ((("page" : String) ++ "=" ++ jsNumStr p)).data =
      ("page", jsNumStr p) := paramChunk_eqS (by decide)
  have e3 : paramChunk ((("api_key" : String) ++ "=" ++ key)).data = ("api_key", key) :=
    paramChunk_eqS (by decide)
  rw [searchUrl_canonical, queryParams_split hp, splitAmp_cons hq1, splitAmp_cons hq2,
    splitAmp_single hq3, List.map_cons, List.map_cons, List.map_cons, List.map_nil,
    e1, e2, e3]

theorem queryParams_category (s : String) (p : Int) (key : String)
    (hs : '?' ∉ s.data) (hk : '&' ∉ key.data) :
    queryParams ("/movie/" ++ s ++ "?page=" ++ jsNumStr p ++ "&api_key=" ++ key) =
      [("page", jsNumStr p), ("api_key", key)] := by
  have hp : '?' ∉ (("/movie/" : String) ++ s).data := not_mem_sappend (by decide) hs
  have hq1 : '&' ∉ (("page" : String) ++ "=" ++ jsNumStr p).data :=
    not_mem_sappend (by decide) (amp_not_mem_jsNumStr p)
  have hq2 : '&' ∉ (("api_key" : String) ++ "=" ++ key).data :=
    not_mem_sappend (by decide) hk
  have e1 : paramChunk ((("page" : String) ++ "=" ++ jsNumStr p)).data =
      ("page", jsNumStr p) := paramChunk_eqS (by decide)
  have e2 : paramChunk ((("api_key" : String) ++ "=" ++ key)).data = ("api_key", key) :=
    paramChunk_eqS (by decide)
  rw [categoryUrl_canonical, queryParams_split hp, splitAmp_cons hq1, splitAmp_single hq2,
    List.map_cons, List.map_cons, List.map_nil, e1, e2]

theorem queryParams_genre (gs : String) (p : Int) (key : String)
    (hgs : '&' ∉ gs.data) (hk : '&' ∉ key.data) :
    queryParams ("discover/movie?with_genres=" ++ gs ++ "&page=" ++ jsNumStr p ++
        "&api_key=" ++ key) =
      [("with_genres", gs), ("page", jsNumStr p), ("api_key", key)] := by
  have hp : '?' ∉ ("discover/movie" : String).data := by decide
  have hq1 : '&' ∉ (("with_genres" : String) ++ "=" ++ gs).data :=
    not_mem_sappend (by decide) hgs
  have hq2 : '&' ∉ (("page" : String) ++ "=" ++ jsNumStr p).data :=
    not_mem_sappend (by decide) (amp_not_mem_jsNumStr p)
  have hq3 : '&' ∉ (("api_key" : String) ++ "=" ++ key).data :=
    not_mem_sappend (by decide) hk
  have e1 : paramChunk ((("with_genres" : String) ++ "=" ++ gs)).data =
      ("with_genres", gs) := paramChunk_eqS (by decide)
  have e2 : paramChunk ((("page" : String) ++ "=" ++ jsNumStr p)).data =
      ("page", jsNumStr p) := paramChunk_eqS (by decide)
  have e3 : paramChunk ((("api_key" : String) ++ "=" ++ key)).data = ("api_key", key) :=
    paramChunk_eqS (by decide)
  rw [genreUrl_canonical, queryParams_split hp, splitAmp_cons hq1, splitAmp_cons hq2,
    splitAmp_single hq3, List.map_cons, List.map_cons, List.map_cons, List.map_nil,
    e1, e2, e3]

theorem queryParams_popular (p : Int) (key : String) (hk : '&' ∉ key.data) :
    queryParams ("/movie/popular?page=" ++ jsNumStr p ++ "&api_key=" ++ key) =
      [("page", jsNumStr p), ("api_key", key)] := by
  have hp : '?' ∉ ("/movie/popular" : String).data := by decide
  have hq1 : '&' ∉ (("page" : String) ++ "=" ++ jsNumStr p).data :=
    not_mem_sappend (by decide) (amp_not_mem_jsNumStr p)
  have hq2 : '&' ∉ (("api_key" : String) ++ "=" ++ key).data :=
    not_mem_sappend (by decide) hk
  have e1 : paramChunk ((("page" : String) ++ "=" ++ jsNumStr p)).data =
      ("page", jsNumStr p) := paramChunk_eqS (by decide)
  have e2 : paramChunk ((("api_key" : String) ++ "=" ++ key)).data = ("api_key", key) :=
    paramChunk_eqS (by decide)
  rw [popularUrl_canonical, queryParams_split hp, splitAmp_cons hq1, splitAmp_single hq2,
    List.map_cons, List.map_cons, List.map_nil, e1, e2]

theorem queryParams_getMovie (id : JVal) (key : String)
    (hid : '?' ∉ id.interp.data) (hk : '&' ∉ key.data) :
    queryParams (getMovie id key) =
      [("append_to_response", "videos,credits"), ("api_key", key)] := by
  have hp : '?' ∉ (("/movie/" : String) ++ id.interp).data :=
    not_mem_sappend (by decide) hid
  have hq1 : '&' ∉ (("append_to_response" : String) ++ "=" ++ "videos,credits").data := by
    decide
  have hq2 : '&' ∉ (("api_key" : String) ++ "=" ++ key).data :=
    not_mem_sappend (by decide) hk
  have e1 : paramChunk ((("append_to_response" : String) ++ "=" ++ "videos,credits")).data =
      ("append_to_response", "videos,credits") := paramChunk_eqS (by decide)
  have e2 : paramChunk ((("api_key" : String) ++ "=" ++ key)).data = ("api_key", key) :=
    paramChunk_eqS (by decide)
  rw [getMovie_canonical, queryParams_split hp, splitAmp_cons hq1, splitAmp_single hq2,
    List.map_cons, List.map_cons, List.map_nil, e1, e2]

theorem queryParams_getRecommendations (m l : JVal) (key : String)
    (hm : '?' ∉ m.interp.data) (hl : '?' ∉ l.interp.data) (hk : '&' ∉ key.data) :
    queryParams (getRecommendations m l key) = [("api_key", key)] := by
  have hp1 : '?' ∉ (("/movie/" : String) ++ m.interp).data :=
    not_mem_sappend (by decide) hm
  have hp2 : '?' ∉ (("/movie/" : String) ++ m.interp ++ "/").data :=
    not_mem_sappend hp1 (by decide)
  have hp : '?' ∉ (("/movie/" : String) ++ m.interp ++ "/" ++ l.interp).data :=
    not_mem_sappend hp2 hl
  have hq1 : '&' ∉ (("api_key" : String) ++ "=" ++ key).data :=
    not_mem_sappend (by decide) hk
  have e1 : paramChunk ((("api_key" : String) ++ "=" ++ key)).data = ("api_key", key) :=
    paramChunk_eqS (by decide)
  rw [getRecommendations_canonical, queryParams_split hp, splitAmp_single hq1,
    List.map_cons, List.map_nil, e1]

theorem queryParams_getActorDetails (id : JVal) (key : String)
    (hid : '?' ∉ id.interp.data) (hk : '&' ∉ key.data) :
    queryParams (getActorDetails id key) = [("api_key", key)] := by
  have hp : '?' ∉ (("person/" : String) ++ id.interp).data :=
    not_mem_sappend (by decide) hid
  have hq1 : '&' ∉ (("api_key" : String) ++ "=" ++ key).data :=
    not_mem_sappend (by decide) hk
  have e1 : paramChunk ((("api_key" : String) ++ "=" ++ key)).data = ("api_key", key) :=
    paramChunk_eqS (by decide)
  rw [getActorDetails_canonical, queryParams_split hp, splitAmp_single hq1,
    List.map_cons, List.map_nil, e1]

theorem queryParams_getMoviesByActorId (id : JVal) (p : Int) (key : String)
    (hid : '&' ∉ id.interp.data) (hk : '&' ∉ key.data) :
    queryParams (getMoviesByActorId id p key) =
      [("with_cast", id.interp), ("page", jsNumStr p), ("api_key", key)] := by
  have hp : '?' ∉ ("/discover/movie" : String).data := by decide
  have hq1 : '&' ∉ (("with_cast" : String) ++ "=" ++ id.interp).data :=
    not_mem_sappend (by decide) hid
  have hq2 : '&' ∉ (("page" : String) ++ "=" ++ jsNumStr p).data :=
    not_mem_sappend (by decide) (amp_not_mem_jsNumStr p)
  have hq3 : '&' ∉ (("api_key" : String) ++ "=" ++ key).data :=
    not_mem_sappend (by decide) hk
  have e1 : paramChunk ((("with_cast" : String) ++ "=" ++ id.interp)).data =
      ("with_cast", id.interp) := paramChunk_eqS (by decide)
  have e2 : paramChunk ((("page" : String) ++ "=" ++ jsNumStr p)).data =
      ("page", jsNumStr p) := paramChunk_eqS (by decide)
  have e3 : paramChunk ((("api_key" : String) ++ "=" ++ key)).data = ("api_key", key) :=
    paramChunk_eqS (by decide)
  rw [getMoviesByActorId_canonical, queryParams_split hp, splitAmp_cons hq1,
    splitAmp_cons hq2, splitAmp_single hq3, List.map_cons, List.map_cons, List.map_cons,
    List.map_nil, e1, e2, e3]

theorem queryParams_getList (a : ListArg) (key : String)
    (hacc : '?' ∉ a.accountId.interp.data) (hln : '?' ∉ a.listName.data)
    (hsid : '&' ∉ a.sessionId.data) (hk : '&' ∉ key.data) :
    queryParams (getList a key) =
      [("api_key", key), ("session_id", a.sessionId), ("page", jsNumStr a.page)] := by
  have hp1 : '?' ∉ (("/account/" : String) ++ a.accountId.interp).data :=
    not_mem_sappend (by decide) hacc
  have hp2 : '?' ∉ (("/account/" : String) ++ a.accountId.interp ++ "/").data :=
    not_mem_sappend hp1 (by decide)
  have hp : '?' ∉ (("/account/" : String) ++ a.accountId.interp ++ "/" ++ a.listName).data :=
    not_mem_sappend hp2 hln
  have hq1 : '&' ∉ (("api_key" : String) ++ "=" ++ key).data :=
    not_mem_sappend (by decide) hk
  have hq2 : '&' ∉ (("session_id" : String) ++ "=" ++ a.sessionId).data :=
    not_mem_sappend (by decide) hsid
  have hq3 : '&' ∉ (("page" : String) ++ "=" ++ jsNumStr a.page).data :=
    not_mem_sappend (by decide) (amp_not_mem_jsNumStr a.page)
  have e1 : paramChunk ((("api_key" : String) ++ "=" ++ key)).data = ("api_key", key) :=
    paramChunk_eqS (by decide)
  have e2 : paramChunk ((("session_id" : String) ++ "=" ++ a.sessionId)).data =
      ("session_id", a.sessionId) := paramChunk_eqS (by decide)
  have e3 : paramChunk ((("page" : String) ++ "=" ++ jsNumStr a.page)).data =
      ("page", jsNumStr a.page) := paramChunk_eqS (by decide)
  rw [getList_canonical, queryParams_split hp, splitAmp_cons hq1, splitAmp_cons hq2,
    splitAmp_single hq3, List.map_cons, List.map_cons, List.map_cons, List.map_nil,
    e1, e2, e3]

/-- C1: selector precedence in `getMovies` is strict and ordered.  For every
input and key: a truthy (non-empty, defined) `searchQuery` selects the
`/search/movie` branch with `query` and `page` parameters regardless of the
`genreIdOrCategoryName` value; otherwise a truthy string selector selects the
category branch; otherwise a truthy numeric selector selects the genre
branch; otherwise the popular default is produced.  Moreover exactly one of
the four branch guards holds on every input (never zero, never two). -/
theorem getMovies_selector_precedence (a : MoviesArg) (key : String) :
    (truthyOptStr a.searchQuery = true →
      getMovies a key = "/search/movie?query=" ++ optInterp a.searchQuery ++ "&page=" ++
        jsNumStr a.page ++ "&api_key=" ++ key) ∧
    (truthyOptStr a.searchQuery = false →
      (a.genreIdOrCategoryName.truthy && a.genreIdOrCategoryName.isStringType) = true →
      getMovies a key = "/movie/" ++ a.genreIdOrCategoryName.interp ++ "?page=" ++
        jsNumStr a.page ++ "&api_key=" ++ key) ∧
    (truthyOptStr a.searchQuery = false →
      (a.genreIdOrCategoryName.truthy && a.genreIdOrCategoryName.isStringType) = false →
      (a.genreIdOrCategoryName.truthy && a.genreIdOrCategoryName.isNumberType) = true →
      getMovies a key = "discover/movie?with_genres=" ++ a.genreIdOrCategoryName.interp ++
        "&page=" ++ jsNumStr a.page ++ "&api_key=" ++ key) ∧
    (truthyOptStr a.searchQuery = false →
      (a.genreIdOrCategoryName.truthy && a.genreIdOrCategoryName.isStringType) = false →
      (a.genreIdOrCategoryName.truthy && a.genreIdOrCategoryName.isNumberType) = false →
      getMovies a key = "/movie/popular?page=" ++ jsNumStr a.page ++ "&api_key=" ++ key) ∧
    [searchGuard a, categoryGuard a, genreGuard a, popularGuard a].count true = 1 := by
  refine ⟨fun h1 => by simp [getMovies, h1],
    fun h1 h2 => by simp [getMovies, h1, h2],
    fun h1 h2 h3 => by simp [getMovies, h1, h2, h3],
    fun h1 h2 h3 => by simp [getMovies, h1, h2, h3], ?_⟩
  simp only [searchGuard, categoryGuard, genreGuard, popularGuard]
  cases h1 : truthyOptStr a.searchQuery <;>
    cases h2 : a.genreIdOrCategoryName.truthy && a.genreIdOrCategoryName.isStringType <;>
    cases h3 : a.genreIdOrCategoryName.truthy && a.genreIdOrCategoryName.isNumberType <;>
    decide

/-- Witness for C1: one concrete input per branch, with the hypotheses of the
corresponding conjunct discharged by evaluation. -/
theorem getMovies_selector_precedence_witness :
    getMovies ⟨JVal.vnum 28, 1, some ("batman")⟩ ("KEY") =
      "/search/movie?query=batman&page=1&api_key=KEY" ∧
    getMovies ⟨JVal.vstr ("top_rated"), 2, none⟩ ("KEY") =
      "/movie/top_rated?page=2&api_key=KEY" ∧
    getMovies ⟨JVal.vnum 28, 1, none⟩ ("KEY") =
      "discover/movie?with_genres=28&page=1&api_key=KEY" ∧
    getMovies ⟨JVal.vundef, 3, none⟩ ("KEY") = "/movie/popular?page=3&api_key=KEY" := by
  refine ⟨?_, ?_, ?_, ?_⟩
  · exact ((getMovies_selector_precedence ⟨JVal.vnum 28, 1, some ("batman")⟩ ("KEY")).1
      (by decide)).trans (by decide)
  · exact ((getMovies_selector_precedence ⟨JVal.vstr ("top_rated"), 2, none⟩ ("KEY")).2.1
      (by decide) (by decide)).trans (by decide)
  · exact ((getMovies_selector_precedence ⟨JVal.vnum 28, 1, none⟩ ("KEY")).2.2.1
      (by decide) (by decide) (by decide)).trans (by decide)
  · exact ((getMovies_selector_precedence ⟨JVal.vundef, 3, none⟩ ("KEY")).2.2.2.1
      (by decide) (by decide) (by decide)).trans (by decide)

/-- C2 as stated is false on the code: at `resolveMovies(28, 1)` the genre
branch of `getMovies` (line 27 of TMDB.js) produces the relative URL
`discover/movie?...` with no leading slash, so the path component of the
resolver output is `discover/movie`, not `/discover/movie`. -/
theorem getMovies_genre_slash_counterexample :
    urlPath (getMovies ⟨JVal.vnum 28, 1, none⟩ ("KEY")) ≠ "/discover/movie" ∧
    getMovies ⟨JVal.vnum 28, 1, none⟩ ("KEY") =
      "discover/movie?with_genres=28&page=1&api_key=KEY" := by decide

/-- C2 (amended): with a non-zero numeric genre id as selector, no search
text, `getMovies` resolves to path `discover/movie` (the source omits the
leading slash in this one branch; the collaborator's base-URL join produces
the same request target), with `with_genres` set to the genre id and the
given page among the query parameters. -/
theorem getMovies_genre_branch (n p : Int) (key : String) (hn : n ≠ 0) :
    getMovies ⟨JVal.vnum n, p, none⟩ key =
      "discover/movie?with_genres=" ++ jsNumStr n ++ "&page=" ++ jsNumStr p ++
        "&api_key=" ++ key ∧
    urlPath (getMovies ⟨JVal.vnum n, p, none⟩ key) = "discover/movie" ∧
    ("with_genres", jsNumStr n) ∈ queryParams (getMovies ⟨JVal.vnum n, p, none⟩ key) ∧
    ("page", jsNumStr p) ∈ queryParams (getMovies ⟨JVal.vnum n, p, none⟩ key) := by
  have hb : getMovies ⟨JVal.vnum n, p, none⟩ key =
      "discover/movie?with_genres=" ++ jsNumStr n ++ "&page=" ++ jsNumStr p ++
        "&api_key=" ++ key := by
    simp [getMovies, truthyOptStr, JVal.truthy, JVal.isStringType, JVal.isNumberType,
      JVal.interp, hn]
  have hp : '?' ∉ ("discover/movie" : String).data := by decide
  have hq1 : '&' ∉ (("with_genres" : String) ++ "=" ++ jsNumStr n).data :=
    not_mem_sappend (by decide) (amp_not_mem_jsNumStr n)
  have hq2 : '&' ∉ (("page" : String) ++ "=" ++ jsNumStr p).data :=
    not_mem_sappend (by decide) (amp_not_mem_jsNumStr p)
  refine ⟨hb, ?_, ?_, ?_⟩
  · rw [hb, genreUrl_canonical, urlPath_split hp]
  · rw [hb, genreUrl_canonical, queryParams_split hp, splitAmp_cons hq1]
    exact List.mem_map.mpr ⟨(("with_genres" : String) ++ "=" ++ jsNumStr n).data,
      List.mem_cons_self _ _, paramChunk_eqS (by decide)⟩
  · rw [hb, genreUrl_canonical, queryParams_split hp, splitAmp_cons hq1, splitAmp_cons hq2]
    exact List.mem_map.mpr ⟨(("page" : String) ++ "=" ++ jsNumStr p).data,
      List.mem_cons_of_mem _ (List.mem_cons_self _ _), paramChunk_eqS (by decide)⟩

/-- Witness for the amended C2 at `resolveMovies(28, 1)`. -/
theorem getMovies_genre_branch_witness :
    (28 : Int) ≠ 0 ∧
    urlPath (getMovies ⟨JVal.vnum 28, 1, none⟩ ("K")) = "discover/movie" ∧
    ("with_genres", jsNumStr 28) ∈ queryParams (getMovies ⟨JVal.vnum 28, 1, none⟩ ("K")) ∧
    ("page", jsNumStr 1) ∈ queryParams (getMovies ⟨JVal.vnum 28, 1, none⟩ ("K")) := by
  refine ⟨by decide, ?_, ?_, ?_⟩
  · exact (getMovies_genre_branch 28 1 ("K") (by decide)).2.1
  · exact (getMovies_genre_branch 28 1 ("K") (by decide)).2.2.1
  · exact (getMovies_genre_branch 28 1 ("K") (by decide)).2.2.2

/-- C3 is violated by the code: `const tmdbApiKey = process.env.REACT_APP_TMDB_KEY`
performs no presence check, so when the environment variable is absent the
constant is `undefined` and every endpoint silently embeds the text
"undefined" as the `api_key` parameter value; no configuration error can
surface before (or at) any resolver call.  Evaluated here at `getGenres` and
at a default `getMovies` call with the credential absent. -/
theorem missing_credential_embedded :
    getGenres (envKeyString none) = "/genre/movie/list?api_key=undefined" ∧
    ("api_key", "undefined") ∈ queryParams (getGenres (envKeyString none)) ∧
    getMovies ⟨JVal.vundef, 1, none⟩ (envKeyString none) =
      "/movie/popular?page=1&api_key=undefined" := by decide

/-- C4: with `searchQuery` and `genreIdOrCategoryName` both absent,
`getMovies` resolves to the popular-movies path `/movie/popular` with
exactly the given page value as its `page` parameter, for every page. -/
theorem getMovies_default_popular (p : Int) (key : String) :
    getMovies ⟨JVal.vundef, p, none⟩ key =
      "/movie/popular?page=" ++ jsNumStr p ++ "&api_key=" ++ key ∧
    urlPath (getMovies ⟨JVal.vundef, p, none⟩ key) = "/movie/popular" ∧
    ("page", jsNumStr p) ∈ queryParams (getMovies ⟨JVal.vundef, p, none⟩ key) := by
  have hb : getMovies ⟨JVal.vundef, p, none⟩ key =
      "/movie/popular?page=" ++ jsNumStr p ++ "&api_key=" ++ key := by
    simp [getMovies, truthyOptStr, JVal.truthy]
  have hp : '?' ∉ ("/movie/popular" : String).data := by decide
  have hq1 : '&' ∉ (("page" : String) ++ "=" ++ jsNumStr p).data :=
    not_mem_sappend (by decide) (amp_not_mem_jsNumStr p)
  refine ⟨hb, ?_, ?_⟩
  · rw [hb, popularUrl_canonical, urlPath_split hp]
  · rw [hb, popularUrl_canonical, queryParams_split hp, splitAmp_cons hq1]
    exact List.mem_map.mpr ⟨(("page" : String) ++ "=" ++ jsNumStr p).data,
      List.mem_cons_self _ _, paramChunk_eqS (by decide)⟩

/-- C5: for every movie id (whose rendering contains no question mark, as
numeric ids do), `getMovie` resolves to path `/movie/{movieId}` with
`append_to_response=videos,credits` among its query parameters. -/
theorem getMovie_resolution (id : JVal) (key : String) (hid : '?' ∉ id.interp.data) :
    getMovie id key = "/movie/" ++ id.interp ++
      "?append_to_response=videos,credits&api_key=" ++ key ∧
    urlPath (getMovie id key) = "/movie/" ++ id.interp ∧
    ("append_to_response", "videos,credits") ∈ queryParams (getMovie id key) := by
  have hp : '?' ∉ (("/movie/" : String) ++ id.interp).data :=
    not_mem_sappend (by decide) hid
  have hq1 : '&' ∉ (("append_to_response" : String) ++ "=" ++ "videos,credits").data := by
    decide
  refine ⟨rfl, ?_, ?_⟩
  · rw [getMovie_canonical, urlPath_split hp]
  · rw [getMovie_canonical, queryParams_split hp, splitAmp_cons hq1]
    exact List.mem_map.mpr
      ⟨(("append_to_response" : String) ++ "=" ++ "videos,credits").data,
        List.mem_cons_self _ _, paramChunk_eqS (by decide)⟩

/-- Witness for C5 at `resolveMovieDetail(550)`: path `/movie/550` and the
`append_to_response=videos,credits` parameter. -/
theorem getMovie_resolution_witness :
    '?' ∉ (JVal.vnum 550).interp.data ∧
    urlPath (getMovie (JVal.vnum 550) ("KEY")) = "/movie/550" ∧
    ("append_to_response", "videos,credits") ∈
      queryParams (getMovie (JVal.vnum 550) ("KEY")) := by
  refine ⟨by decide, ?_, ?_⟩
  · exact ((getMovie_resolution (JVal.vnum 550) ("KEY") (by decide)).2.1).trans (by decide)
  · exact (getMovie_resolution (JVal.vnum 550) ("KEY") (by decide)).2.2

/-- C6: for every account id, list name, session id, page and key (with the
path components free of question marks and the query components free of
ampersands, which no caller-supplied value here contains), `getList`
resolves to path `/account/{accountId}/{listName}` with `session_id` and
`page` among its query parameters. -/
theorem getList_resolution (a : ListArg) (key : String)
    (hacc : '?' ∉ a.accountId.interp.data) (hln : '?' ∉ a.listName.data)
    (hsid : '&' ∉ a.sessionId.data) (hk : '&' ∉ key.data) :
    getList a key = "/account/" ++ a.accountId.interp ++ "/" ++ a.listName ++
      "?api_key=" ++ key ++ "&session_id=" ++ a.sessionId ++ "&page=" ++ jsNumStr a.page ∧
    urlPath (getList a key) = "/account/" ++ a.accountId.interp ++ "/" ++ a.listName ∧
    ("session_id", a.sessionId) ∈ queryParams (getList a key) ∧
    ("page", jsNumStr a.page) ∈ queryParams (getList a key) := by
  have hp1 : '?' ∉ (("/account/" : String) ++ a.accountId.interp).data :=
    not_mem_sappend (by decide) hacc
  have hp2 : '?' ∉ (("/account/" : String) ++ a.accountId.interp ++ "/").data :=
    not_mem_sappend hp1 (by decide)
  have hp : '?' ∉ (("/account/" : String) ++ a.accountId.interp ++ "/" ++ a.listName).data :=
    not_mem_sappend hp2 hln
  have hqp := queryParams_getList a key hacc hln hsid hk
  refine ⟨rfl, ?_, ?_, ?_⟩
  · rw [getList_canonical, urlPath_split hp]
  · rw [hqp]
    exact List.mem_cons_of_mem _ (List.mem_cons_self _ _)
  · rw [hqp]
    exact List.mem_cons_of_mem _ (List.mem_cons_of_mem _ (List.mem_cons_self _ _))

/-- Witness for C6 at `accountId="123"`, `listName="favorite/movies"`,
`sessionId="abc"`, `page=1`. -/
theorem getList_resolution_witness :
    '?' ∉ (JVal.vstr ("123")).interp.data ∧
    '?' ∉ ("favorite/movies" : String).data ∧
    '&' ∉ ("abc" : String).data ∧
    '&' ∉ ("KEY" : String).data ∧
    urlPath (getList ⟨("favorite/movies"), JVal.vstr ("123"), ("abc"), 1⟩ ("KEY")) =
      "/account/123/favorite/movies" ∧
    ("session_id", "abc") ∈
      queryParams (getList ⟨("favorite/movies"), JVal.vstr ("123"), ("abc"), 1⟩ ("KEY")) ∧
    ("page", jsNumStr 1) ∈
      queryParams (getList ⟨("favorite/movies"), JVal.vstr ("123"), ("abc"), 1⟩ ("KEY")) := by
  refine ⟨by decide, by decide, by decide, by decide, ?_, ?_, ?_⟩
  · exact ((getList_resolution ⟨("favorite/movies"), JVal.vstr ("123"), ("abc"), 1⟩ ("KEY")
      (by decide) (by decide) (by decide) (by decide)).2.1).trans (by decide)
  · exact (getList_resolution ⟨("favorite/movies"), JVal.vstr ("123"), ("abc"), 1⟩ ("KEY")
      (by decide) (by decide) (by decide) (by decide)).2.2.1
  · exact (getList_resolution ⟨("favorite/movies"), JVal.vstr ("123"), ("abc"), 1⟩ ("KEY")
      (by decide) (by decide) (by decide) (by decide)).2.2.2

/-- C7: every endpoint call is a deterministic, side-effect-free function of
its request plus the module-level credential: any sequence of calls leaves
the module state unchanged, and each call's output equals the output that
request produces against the initial state in isolation — so two calls with
identical inputs, anywhere in any sequence, yield identical strings. -/
theorem resolvers_deterministic_stateless (e : ModuleEnv) (rs : List Request) :
    (runCalls e rs).2 = e ∧
    (runCalls e rs).1 = rs.map fun r => resolve r (envKeyString e.tmdbApiKey) := by
  induction rs with
  | nil => exact ⟨rfl, rfl⟩
  | cons r rs ih =>
    refine ⟨?_, ?_⟩
    · show (runCalls e rs).2 = e
      exact ih.1
    · show resolve r (envKeyString e.tmdbApiKey) :: (runCalls e rs).1 = _
      rw [List.map_cons, ih.2]

/-- C8: with a non-empty string category as selector and no search text,
`getMovies` resolves to path `/movie/{selector}` with the given page as its
`page` parameter. -/
theorem getMovies_category_branch (s : String) (p : Int) (key : String)
    (hs : s ≠ "") (hq : '?' ∉ s.data) :
    getMovies ⟨JVal.vstr s, p, none⟩ key =
      "/movie/" ++ s ++ "?page=" ++ jsNumStr p ++ "&api_key=" ++ key ∧
    urlPath (getMovies ⟨JVal.vstr s, p, none⟩ key) = "/movie/" ++ s ∧
    ("page", jsNumStr p) ∈ queryParams (getMovies ⟨JVal.vstr s, p, none⟩ key) := by
  have hb : getMovies ⟨JVal.vstr s, p, none⟩ key =
      "/movie/" ++ s ++ "?page=" ++ jsNumStr p ++ "&api_key=" ++ key := by
    simp [getMovies, truthyOptStr, JVal.truthy, JVal.isStringType, JVal.interp, hs]
  have hp : '?' ∉ (("/movie/" : String) ++ s).data := not_mem_sappend (by decide) hq
  have hq1 : '&' ∉ (("page" : String) ++ "=" ++ jsNumStr p).data :=
    not_mem_sappend (by decide) (amp_not_mem_jsNumStr p)
  refine ⟨hb, ?_, ?_⟩
  · rw [hb, categoryUrl_canonical, urlPath_split hp]
  · rw [hb, categoryUrl_canonical, queryParams_split hp, splitAmp_cons hq1]
    exact List.mem_map.mpr ⟨(("page" : String) ++ "=" ++ jsNumStr p).data,
      List.mem_cons_self _ _, paramChunk_eqS (by decide)⟩

/-- Witness for C8 at `resolveMovies("top_rated", 2)`. -/
theorem getMovies_category_branch_witness :
    ("top_rated" : String) ≠ "" ∧
    '?' ∉ ("top_rated" : String).data ∧
    getMovies ⟨JVal.vstr ("top_rated"), 2, none⟩ ("KEY") =
      "/movie/top_rated?page=2&api_key=KEY" ∧
    urlPath (getMovies ⟨JVal.vstr ("top_rated"), 2, none⟩ ("KEY")) = "/movie/top_rated" ∧
    ("page", jsNumStr 2) ∈
      queryParams (getMovies ⟨JVal.vstr ("top_rated"), 2, none⟩ ("KEY")) := by
  refine ⟨by decide, by decide, ?_, ?_, ?_⟩
  · exact ((getMovies_category_branch ("top_rated") 2 ("KEY") (by decide)
      (by decide)).1).trans (by decide)
  · exact ((getMovies_category_branch ("top_rated") 2 ("KEY") (by decide)
      (by decide)).2.1).trans (by decide)
  · exact (getMovies_category_branch ("top_rated") 2 ("KEY") (by decide) (by decide)).2.2

/-- C9: falsy selector values are treated as absent in `getMovies`: an
empty-string `searchQuery` never selects the search branch (the result
equals the one with `searchQuery` absent, whatever the other selector is);
an empty-string `genreIdOrCategoryName` does not select the category branch
and a genre id of 0 does not select the genre branch (both resolve as if
the selector were absent); and with all selectors falsy the call falls
through to the `/movie/popular` default. -/
theorem getMovies_falsy_selectors (g : JVal) (p : Int) (key : String) :
    getMovies ⟨g, p, some ("")⟩ key = getMovies ⟨g, p, none⟩ key ∧
    getMovies ⟨JVal.vstr (""), p, none⟩ key = getMovies ⟨JVal.vundef, p, none⟩ key ∧
    getMovies ⟨JVal.vnum 0, p, none⟩ key = getMovies ⟨JVal.vundef, p, none⟩ key ∧
    getMovies ⟨JVal.vundef, p, none⟩ key =
      "/movie/popular?page=" ++ jsNumStr p ++ "&api_key=" ++ key := by
  refine ⟨?_, ?_, ?_, ?_⟩
  · simp [getMovies, truthyOptStr]
  · simp [getMovies, truthyOptStr, JVal.truthy, JVal.isStringType, JVal.isNumberType]
  · simp [getMovies, truthyOptStr, JVal.truthy, JVal.isStringType, JVal.isNumberType]
  · simp [getMovies, truthyOptStr, JVal.truthy]

/-- C10 as stated (over every input) is false: the resolver performs no URL
escaping, so an input containing separator characters can smuggle a second
`api_key` parameter into the query string.  The search query
"a&api_key=EVIL" produces a URL whose query string carries the `api_key`
parameter twice, not exactly once. -/
theorem apiKey_once_counterexample :
    paramCount (getMovies ⟨JVal.vundef, 1, some ("a&api_key=EVIL")⟩ ("KEY")) ("api_key") ≠ 1 ∧
    paramCount (getMovies ⟨JVal.vundef, 1, some ("a&api_key=EVIL")⟩ ("KEY")) ("api_key") = 2 ∧
    getMovies ⟨JVal.vundef, 1, some ("a&api_key=EVIL")⟩ ("KEY") =
      "/search/movie?query=a&api_key=EVIL&page=1&api_key=KEY" := by decide

/-- C10 (amended): for every request whose interpolated string components
are free of the URL separator characters `?` and `&` (no escaping is
performed by the code), and a separator-free credential, the URL resolved
by any of the seven endpoints carries the `api_key` query parameter exactly
once, with the configured credential as its value. -/
theorem apiKey_exactly_once (r : Request) (key : String)
    (hr : cleanReq r) (hk : sepFree key) :
    paramCount (resolve r key) ("api_key") = 1 ∧
    ("api_key", key) ∈ queryParams (resolve r key) := by
  obtain ⟨hk1, hk2⟩ := hk
  cases r with
  | genres =>
    have hqp := queryParams_getGenres key hk2
    refine ⟨?_, ?_⟩
    · show paramCount (getGenres key) ("api_key") = 1
      unfold paramCount
      rw [hqp]
      simp
    · show ("api_key", key) ∈ queryParams (getGenres key)
      rw [hqp]
      exact List.mem_cons_self _ _
  | movies a =>
    obtain ⟨⟨hsq1, hsq2⟩, hg1, hg2⟩ := hr
    cases h1 : truthyOptStr a.searchQuery with
    | true =>
      have hb : getMovies a key = "/search/movie?query=" ++ optInterp a.searchQuery ++
          "&page=" ++ jsNumStr a.page ++ "&api_key=" ++ key := by
        simp [getMovies, h1]
      have hqp := queryParams_search (optInterp a.searchQuery) a.page key hsq2 hk2
      refine ⟨?_, ?_⟩
      · show paramCount (getMovies a key) ("api_key") = 1
        unfold paramCount
        rw [hb, hqp]
        simp
      · show ("api_key", key) ∈ queryParams (getMovies a key)
        rw [hb, hqp]
        exact List.mem_cons_of_mem _ (List.mem_cons_of_mem _ (List.mem_cons_self _ _))
    | false =>
      cases h2 : a.genreIdOrCategoryName.truthy && a.genreIdOrCategoryName.isStringType with
      | true =>
        have hb : getMovies a key = "/movie/" ++ a.genreIdOrCategoryName.interp ++
            "?page=" ++ jsNumStr a.page ++ "&api_key=" ++ key := by
          simp [getMovies, h1, h2]
        have hqp := queryParams_category a.genreIdOrCategoryName.interp a.page key hg1 hk2
        refine ⟨?_, ?_⟩
        · show paramCount (getMovies a key) ("api_key") = 1
          unfold paramCount
          rw [hb, hqp]
          simp
        · show ("api_key", key) ∈ queryParams (getMovies a key)
          rw [hb, hqp]
          exact List.mem_cons_of_mem _ (List.mem_cons_self _ _)
      | false =>
        cases h3 : a.genreIdOrCategoryName.truthy && a.genreIdOrCategoryName.isNumberType with
        | true =>
          have hb : getMovies a key = "discover/movie?with_genres=" ++
              a.genreIdOrCategoryName.interp ++ "&page=" ++ jsNumStr a.page ++
              "&api_key=" ++ key := by
            simp [getMovies, h1, h2, h3]
          have hqp := queryParams_genre a.genreIdOrCategoryName.interp a.page key hg2 hk2
          refine ⟨?_, ?_⟩
          · show paramCount (getMovies a key) ("api_key") = 1
            unfold paramCount
            rw [hb, hqp]
            simp
          · show ("api_key", key) ∈ queryParams (getMovies a key)
            rw [hb, hqp]
            exact List.mem_cons_of_mem _ (List.mem_cons_of_mem _ (List.mem_cons_self _ _))
        | false =>
          have hb : getMovies a key = "/movie/popular?page=" ++ jsNumStr a.page ++
              "&api_key=" ++ key := by
            simp [getMovies, h1, h2, h3]
          have hqp := queryParams_popular a.page key hk2
          refine ⟨?_, ?_⟩
          · show paramCount (getMovies a key) ("api_key") = 1
            unfold paramCount
            rw [hb, hqp]
            simp
          · show ("api_key", key) ∈ queryParams (getMovies a key)
            rw [hb, hqp]
            exact List.mem_cons_of_mem _ (List.mem_cons_self _ _)
  | movie id =>
    obtain ⟨hi1, hi2⟩ := hr
    have hqp := queryParams_getMovie id key hi1 hk2
    refine ⟨?_, ?_⟩
    · show paramCount (getMovie id key) ("api_key") = 1
      unfold paramCount
      rw [hqp]
      simp
    · show ("api_key", key) ∈ queryParams (getMovie id key)
      rw [hqp]
      exact List.mem_cons_of_mem _ (List.mem_cons_self _ _)
  | recommendations m l =>
    obtain ⟨⟨hm1, hm2⟩, hl1, hl2⟩ := hr
    have hqp := queryParams_getRecommendations m l key hm1 hl1 hk2
    refine ⟨?_, ?_⟩
    · show paramCount (getRecommendations m l key) ("api_key") = 1
      unfold paramCount
      rw [hqp]
      simp
    · show ("api_key", key) ∈ queryParams (getRecommendations m l key)
      rw [hqp]
      exact List.mem_cons_self _ _
  | actorDetails id =>
    obtain ⟨hi1, hi2⟩ := hr
    have hqp := queryParams_getActorDetails id key hi1 hk2
    refine ⟨?_, ?_⟩
    · show paramCount (getActorDetails id key) ("api_key") = 1
      unfold paramCount
      rw [hqp]
      simp
    · show ("api_key", key) ∈ queryParams (getActorDetails id key)
      rw [hqp]
      exact List.mem_cons_self _ _
  | moviesByActorId id p =>
    obtain ⟨hi1, hi2⟩ := hr
    have hqp := queryParams_getMoviesByActorId id p key hi2 hk2
    refine ⟨?_, ?_⟩
    · show paramCount (getMoviesByActorId id p key) ("api_key") = 1
      unfold paramCount
      rw [hqp]
      simp
    · show ("api_key", key) ∈ queryParams (getMoviesByActorId id p key)
      rw [hqp]
      exact List.mem_cons_of_mem _ (List.mem_cons_of_mem _ (List.mem_cons_self _ _))
  | userList a =>
    obtain ⟨⟨ha1, ha2⟩, ⟨hl1, hl2⟩, hs1, hs2⟩ := hr
    have hqp := queryParams_getList a key ha1 hl1 hs2 hk2
    refine ⟨?_, ?_⟩
    · show paramCount (getList a key) ("api_key") = 1
      unfold paramCount
      rw [hqp]
      simp
    · show ("api_key", key) ∈ queryParams (getList a key)
      rw [hqp]
      exact List.mem_cons_self _ _

/-- Witness for the amended C10 at a concrete genre request and credential. -/
theorem apiKey_exactly_once_witness :
    cleanReq (Request.movies ⟨JVal.vnum 28, 1, none⟩) ∧ sepFree ("KEY") ∧
    paramCount (resolve (Request.movies ⟨JVal.vnum 28, 1, none⟩) ("KEY")) ("api_key") = 1 ∧
    ("api_key", "KEY") ∈
      queryParams (resolve (Request.movies ⟨JVal.vnum 28, 1, none⟩) ("KEY")) := by
  refine ⟨by decide, by decide, ?_, ?_⟩
  · exact (apiKey_exactly_once (Request.movies ⟨JVal.vnum 28, 1, none⟩) ("KEY")
      (by decide) (by decide)).1
  · exact (apiKey_exactly_once (Request.movies ⟨JVal.vnum 28, 1, none⟩) ("KEY")
      (by decide) (by decide)).2

end TMDB
